import Mathlib

/-!
Verification of the Sanchalana event-registration application's
authorization and registration-lifecycle logic.

The definitions below are shallow embeddings of the TypeScript source:
* `canModifyRegistration`, `handleVerifyRegistration`,
  `handleRejectRegistration`, `handleResetPaymentStatus` come from the
  registrations-management component;
* `handleAddEdit`, `handleEditEvent` come from the events-management
  component;
* `handleCreateAdmin` comes from the admin-user-management component;
* `onSubmit`, `teamMemberSchema`-derived validators come from the
  registration page;
* `fetchStats` comes from the homepage live counter.

The external Supabase tables are modelled as in-memory lists of rows, and
each handler is a function from the old table state (plus its inputs) to
the new table state paired with an outcome.  JavaScript `undefined`/`null`
on optional columns is modelled with `Option`; JavaScript `===` between a
possibly-undefined value and a string is equality with a `some` value.
-/

/-- One entry of a registration's `team_members` JSON column. -/
structure TeamMember where
  name : String
  usn : String
  phone : String
deriving DecidableEq, Repr

/-- One entry of an event's faculty/student coordinator lists. -/
structure CoordEntry where
  name : String
  phone : String
deriving DecidableEq, Repr

/-- A row of the `departments` table. -/
structure Department where
  id : String
  name : String
  short_name : String
deriving DecidableEq, Repr

/-- A row of the `events` table (fields touched by the embedded handlers). -/
structure Event where
  id : String
  title : String
  description : String
  department_id : String
  venue : String
  conduction_venue : String
  date : String
  team_size : Nat
  registration_fee : Nat
  event_type : String
  is_trending : Bool
  image_url : String
  qr_code_url : String
  payment_qr_url : String
  faculty_coordinators : List CoordEntry
  student_coordinators : List CoordEntry
  created_at : String
deriving DecidableEq, Repr

/-- A row of the `admins` table.  `department_id` and `event_id` are
nullable columns. -/
structure Admin where
  id : String
  username : String
  role : String
  department_id : Option String
  event_id : Option String
deriving DecidableEq, Repr

/-- A row of the `registrations` table. -/
structure Registration where
  id : String
  event_id : String
  user_id : String
  team_id : String
  team_members : List TeamMember
  payment_method : String
  payment_status : String
  created_at : String
deriving DecidableEq, Repr

/-- A registration enriched with its event (the `RegistrationWithDetails`
shape built by the registrations-management fetch, which only keeps
registrations whose event was found). -/
structure RegistrationWithDetails where
  id : String
  event_id : String
  user_id : String
  team_id : String
  team_members : List TeamMember
  payment_method : String
  payment_status : String
  created_at : String
  event : Event
  department : Option Department
deriving DecidableEq, Repr

/-- `adminDetails?.role` : the caller's role, or `none` when the caller has
no admin row. -/
def roleOf (adminDetails : Option Admin) : Option String :=
  adminDetails.map Admin.role

/-- `adminDetails.department_id` read through the optional chain. -/
def adminDeptId (adminDetails : Option Admin) : Option String :=
  adminDetails.bind Admin.department_id

/-- `adminDetails.event_id` read through the optional chain. -/
def adminEventId (adminDetails : Option Admin) : Option String :=
  adminDetails.bind Admin.event_id

/-- `canModifyRegistration` from the registrations-management component:
main_admin always; department_admin when the registration's event belongs
to the admin's department; event_admin when the registration is for the
admin's assigned event; otherwise (including no admin row) false. -/
def canModifyRegistration (adminDetails : Option Admin)
    (registration : RegistrationWithDetails) : Bool :=
  if roleOf adminDetails = some "main_admin" then
    true
  else if roleOf adminDetails = some "department_admin" ∧
      some registration.event.department_id = adminDeptId adminDetails then
    true
  else if roleOf adminDetails = some "event_admin" ∧
      some registration.event_id = adminEventId adminDetails then
    true
  else
    false

/-- C1: `canModifyRegistration` returns true iff the caller has an admin
row whose role is main_admin, or is department_admin with `department_id`
equal to the registration's event's `department_id`, or is event_admin
with `event_id` equal to the registration's `event_id`; with no admin row
it returns false. -/
theorem c1_canModifyRegistration_spec (adminDetails : Option Admin)
    (reg : RegistrationWithDetails) :
    canModifyRegistration adminDetails reg = true ↔
      ∃ a, adminDetails = some a ∧
        (a.role = "main_admin" ∨
         (a.role = "department_admin" ∧
           a.department_id = some reg.event.department_id) ∨
         (a.role = "event_admin" ∧ a.event_id = some reg.event_id)) := by
  cases adminDetails with
  | none =>
      simp [canModifyRegistration, roleOf, adminDeptId, adminEventId]
  | some a =>
      simp only [canModifyRegistration, roleOf, adminDeptId, adminEventId,
        Option.map_some', Option.some_bind, Option.some.injEq]
      by_cases hm : a.role = "main_admin"
      · simp [hm]
      · by_cases hd : a.role = "department_admin"
        · by_cases hdep : a.department_id = some reg.event.department_id
          · simp [hm, hd, hdep]
          · have hdep' : ¬ some reg.event.department_id = a.department_id := by
              intro h; exact hdep h.symm
            simp [hm, hd, hdep, hdep']
        · by_cases he : a.role = "event_admin"
          · by_cases hev : a.event_id = some reg.event_id
            · simp [hm, hd, he, hev]
            · have hev' : ¬ some reg.event_id = a.event_id := by
                intro h; exact hev h.symm
              simp [hm, hd, he, hev, hev']
          · simp [hm, hd, he]

/-- Outcome reported to the caller by a registration-status handler. -/
inductive RegResult where
  | permissionDenied
  | ok
deriving DecidableEq, Repr

/-- The Supabase call `update({ payment_status }).eq("id", registration.id)`
on the `registrations` table: every row whose id matches gets the new
status, all other rows are untouched. -/
def updatePaymentStatus (db : List Registration) (rid status : String) :
    List Registration :=
  db.map fun r => if r.id = rid then { r with payment_status := status } else r

/-- `handleVerifyRegistration`: permission check first, then a
single-field update to "Verified". -/
def handleVerifyRegistration (adminDetails : Option Admin)
    (registration : RegistrationWithDetails) (db : List Registration) :
    List Registration × RegResult :=
  if canModifyRegistration adminDetails registration = false then
    (db, RegResult.permissionDenied)
  else
    (updatePaymentStatus db registration.id "Verified", RegResult.ok)

/-- `handleRejectRegistration`: permission check first, then a
single-field update to "Rejected". -/
def handleRejectRegistration (adminDetails : Option Admin)
    (registration : RegistrationWithDetails) (db : List Registration) :
    List Registration × RegResult :=
  if canModifyRegistration adminDetails registration = false then
    (db, RegResult.permissionDenied)
  else
    (updatePaymentStatus db registration.id "Rejected", RegResult.ok)

/-- `handleResetPaymentStatus`: permission check first, then a
single-field update back to "Pending". -/
def handleResetPaymentStatus (adminDetails : Option Admin)
    (registration : RegistrationWithDetails) (db : List Registration) :
    List Registration × RegResult :=
  if canModifyRegistration adminDetails registration = false then
    (db, RegResult.permissionDenied)
  else
    (updatePaymentStatus db registration.id "Pending", RegResult.ok)

/-- The table `db'` is `db` with exactly the rows whose id is `rid` given
payment_status `status`, and no other field of any row changed. -/
def singleFieldStatusUpdate (db db' : List Registration)
    (rid status : String) : Prop :=
  db'.length = db.length ∧
  ∀ p ∈ db.zip db',
    p.2.id = p.1.id ∧ p.2.event_id = p.1.event_id ∧
    p.2.user_id = p.1.user_id ∧ p.2.team_id = p.1.team_id ∧
    p.2.team_members = p.1.team_members ∧
    p.2.payment_method = p.1.payment_method ∧
    p.2.created_at = p.1.created_at ∧
    p.2.payment_status = (if p.1.id = rid then status else p.1.payment_status)

instance (db db' : List Registration) (rid status : String) :
    Decidable (singleFieldStatusUpdate db db' rid status) := by
  unfold singleFieldStatusUpdate
  infer_instance

theorem updatePaymentStatus_length (db : List Registration)
    (rid status : String) :
    (updatePaymentStatus db rid status).length = db.length := by
  simp [updatePaymentStatus]

theorem updatePaymentStatus_zip_spec (db : List Registration)
    (rid status : String) :
    ∀ p ∈ db.zip (updatePaymentStatus db rid status),
      p.2.id = p.1.id ∧ p.2.event_id = p.1.event_id ∧
      p.2.user_id = p.1.user_id ∧ p.2.team_id = p.1.team_id ∧
      p.2.team_members = p.1.team_members ∧
      p.2.payment_method = p.1.payment_method ∧
      p.2.created_at = p.1.created_at ∧
      p.2.payment_status = (if p.1.id = rid then status else p.1.payment_status) := by
  induction db with
  | nil => intro p hp; simp [updatePaymentStatus] at hp
  | cons r rest ih =>
      intro p hp
      simp only [updatePaymentStatus, List.map_cons, List.zip_cons_cons,
        List.mem_cons] at hp
      rcases hp with hp | hp
      · subst hp
        by_cases h : r.id = rid <;> simp [h]
      · exact ih p (by simpa [updatePaymentStatus] using hp)

theorem updatePaymentStatus_spec (db : List Registration)
    (rid status : String) :
    singleFieldStatusUpdate db (updatePaymentStatus db rid status)
      rid status :=
  ⟨updatePaymentStatus_length db rid status,
   updatePaymentStatus_zip_spec db rid status⟩

/-- C8: for an authorized admin, verify, reject and reset succeed and are
single-field updates: the matching row's payment_status becomes
"Verified"/"Rejected"/"Pending" respectively while event_id, user_id,
team_id, team_members, payment_method and created_at are unchanged, and
rows with other ids are untouched. -/
theorem c8_status_transitions_single_field (adminDetails : Option Admin)
    (reg : RegistrationWithDetails) (db : List Registration)
    (hauth : canModifyRegistration adminDetails reg = true) :
    ((handleVerifyRegistration adminDetails reg db).2 = RegResult.ok ∧
      singleFieldStatusUpdate db
        (handleVerifyRegistration adminDetails reg db).1 reg.id "Verified") ∧
    ((handleRejectRegistration adminDetails reg db).2 = RegResult.ok ∧
      singleFieldStatusUpdate db
        (handleRejectRegistration adminDetails reg db).1 reg.id "Rejected") ∧
    ((handleResetPaymentStatus adminDetails reg db).2 = RegResult.ok ∧
      singleFieldStatusUpdate db
        (handleResetPaymentStatus adminDetails reg db).1 reg.id "Pending") := by
  have h : ¬ canModifyRegistration adminDetails reg = false := by simp [hauth]
  refine ⟨⟨?_, ?_⟩, ⟨?_, ?_⟩, ?_, ?_⟩ <;>
    simp [handleVerifyRegistration, handleRejectRegistration,
      handleResetPaymentStatus, h, updatePaymentStatus_spec]

/-- C8 witness: a main_admin verifying a concrete pending registration. -/
theorem c8_status_transitions_single_field_witness :
    ((handleVerifyRegistration
        (some { id := "a1", username := "m", role := "main_admin",
                department_id := none, event_id := none })
        { id := "r1", event_id := "e1", user_id := "u1", team_id := "TEAM-x",
          team_members := [], payment_method := "Cash",
          payment_status := "Pending", created_at := "c",
          event := { id := "e1", title := "T", description := "",
                     department_id := "d1", venue := "",
                     conduction_venue := "", date := "", team_size := 2,
                     registration_fee := 0, event_type := "Technical",
                     is_trending := false, image_url := "",
                     qr_code_url := "", payment_qr_url := "",
                     faculty_coordinators := [], student_coordinators := [],
                     created_at := "c" },
          department := none }
        [{ id := "r1", event_id := "e1", user_id := "u1",
           team_id := "TEAM-x", team_members := [],
           payment_method := "Cash", payment_status := "Pending",
           created_at := "c" }]).2 = RegResult.ok ∧
      singleFieldStatusUpdate
        [{ id := "r1", event_id := "e1", user_id := "u1",
           team_id := "TEAM-x", team_members := [],
           payment_method := "Cash", payment_status := "Pending",
           created_at := "c" }]
        (handleVerifyRegistration
          (some { id := "a1", username := "m", role := "main_admin",
                  department_id := none, event_id := none })
          { id := "r1", event_id := "e1", user_id := "u1",
            team_id := "TEAM-x", team_members := [],
            payment_method := "Cash", payment_status := "Pending",
            created_at := "c",
            event := { id := "e1", title := "T", description := "",
                       department_id := "d1", venue := "",
                       conduction_venue := "", date := "", team_size := 2,
                       registration_fee := 0, event_type := "Technical",
                       is_trending := false, image_url := "",
                       qr_code_url := "", payment_qr_url := "",
                       faculty_coordinators := [],
                       student_coordinators := [], created_at := "c" },
            department := none }
          [{ id := "r1", event_id := "e1", user_id := "u1",
             team_id := "TEAM-x", team_members := [],
             payment_method := "Cash", payment_status := "Pending",
             created_at := "c" }]).1 "r1" "Verified") :=
  (c8_status_transitions_single_field _ _ _ (by decide)).1

/-- C9: repeating "Verify" on a registration already stored as "Verified"
succeeds and leaves the table unchanged. -/
theorem c9_verify_idempotent (adminDetails : Option Admin)
    (reg : RegistrationWithDetails) (db : List Registration)
    (hauth : canModifyRegistration adminDetails reg = true)
    (hver : ∀ r ∈ db, r.id = reg.id → r.payment_status = "Verified") :
    handleVerifyRegistration adminDetails reg db = (db, RegResult.ok) := by
  have h : ¬ canModifyRegistration adminDetails reg = false := by simp [hauth]
  have hnoop : updatePaymentStatus db reg.id "Verified" = db := by
    induction db with
    | nil => rfl
    | cons r rest ih =>
        have hrest : updatePaymentStatus rest reg.id "Verified" = rest :=
          ih fun x hx hid => hver x (List.mem_cons_of_mem _ hx) hid
        by_cases hr : r.id = reg.id
        · have hps : r.payment_status = "Verified" :=
            hver r (List.mem_cons_self _ _) hr
          cases r
          simp_all [updatePaymentStatus]
        · simp_all [updatePaymentStatus]
  simp [handleVerifyRegistration, h, hnoop]

/-- C9 witness: a main_admin re-verifying a concrete already-Verified
registration leaves the one-row table unchanged and reports success. -/
theorem c9_verify_idempotent_witness :
    handleVerifyRegistration
      (some { id := "a1", username := "m", role := "main_admin",
              department_id := none, event_id := none })
      { id := "r1", event_id := "e1", user_id := "u1", team_id := "TEAM-x",
        team_members := [], payment_method := "Cash",
        payment_status := "Verified", created_at := "c",
        event := { id := "e1", title := "T", description := "",
                   department_id := "d1", venue := "",
                   conduction_venue := "", date := "", team_size := 2,
                   registration_fee := 0, event_type := "Technical",
                   is_trending := false, image_url := "", qr_code_url := "",
                   payment_qr_url := "", faculty_coordinators := [],
                   student_coordinators := [], created_at := "c" },
        department := none }
      [{ id := "r1", event_id := "e1", user_id := "u1", team_id := "TEAM-x",
         team_members := [], payment_method := "Cash",
         payment_status := "Verified", created_at := "c" }] =
      ([{ id := "r1", event_id := "e1", user_id := "u1",
          team_id := "TEAM-x", team_members := [], payment_method := "Cash",
          payment_status := "Verified", created_at := "c" }],
        RegResult.ok) :=
  c9_verify_idempotent _ _ _ (by decide) (by decide)

/-- The values submitted by the event add/edit form (`EventFormValues`). -/
structure EventFormValues where
  title : String
  description : String
  department_id : String
  venue : String
  conduction_venue : String
  date : String
  team_size : Nat
  registration_fee : Nat
  event_type : String
  is_trending : Bool
  image_url : String
  qr_code_url : String
  payment_qr_url : String
  faculty_coordinators : List CoordEntry
  student_coordinators : List CoordEntry
deriving DecidableEq, Repr

/-- Outcome reported by `handleAddEdit`. -/
inductive SaveResult where
  | permissionDenied
  | updated
  | created
deriving DecidableEq, Repr

/-- The `eventData` object of `handleAddEdit` applied to a stored row by
the Supabase `update` call: all form-carried columns are overwritten, the
row's `id` and `created_at` stay. -/
def applyEventData (values : EventFormValues) (e : Event) : Event :=
  { e with
    title := values.title
    description := values.description
    department_id := values.department_id
    venue := values.venue
    conduction_venue := values.conduction_venue
    date := values.date
    team_size := values.team_size
    registration_fee := values.registration_fee
    event_type := values.event_type
    is_trending := values.is_trending
    image_url := values.image_url
    qr_code_url := values.qr_code_url
    payment_qr_url := values.payment_qr_url
    faculty_coordinators := values.faculty_coordinators
    student_coordinators := values.student_coordinators }

/-- The row built by the Supabase `insert` call of `handleAddEdit`; the id
is generated by the backend, modelled by the `freshId` argument. -/
def newEventFrom (values : EventFormValues) (freshId createdAt : String) :
    Event :=
  applyEventData values
    { id := freshId, title := "", description := "", department_id := "",
      venue := "", conduction_venue := "", date := "", team_size := 0,
      registration_fee := 0, event_type := "", is_trending := false,
      image_url := "", qr_code_url := "", payment_qr_url := "",
      faculty_coordinators := [], student_coordinators := [],
      created_at := createdAt }

/-- `handleAddEdit` from the events-management component: a
department_admin is refused when the submitted department is not its own;
an event_admin is refused when the dialog's event is not its assigned
event; otherwise the form values are written (update when a current event
is set, insert when not). -/
def handleAddEdit (adminDetails : Option Admin) (currentEvent : Option Event)
    (values : EventFormValues) (db : List Event)
    (freshId createdAt : String) : List Event × SaveResult :=
  if roleOf adminDetails = some "department_admin" ∧
      ¬ adminDeptId adminDetails = some values.department_id then
    (db, SaveResult.permissionDenied)
  else if roleOf adminDetails = some "event_admin" ∧
      ¬ currentEvent.map Event.id = adminEventId adminDetails then
    (db, SaveResult.permissionDenied)
  else
    match currentEvent with
    | some ev =>
        (db.map fun e => if e.id = ev.id then applyEventData values e else e,
          SaveResult.updated)
    | none =>
        (db ++ [newEventFrom values freshId createdAt], SaveResult.created)

/-- `handleEditEvent`: the edit dialog refuses to open (returns no current
event) when an event_admin targets an event other than its assigned one. -/
def handleEditEvent (adminDetails : Option Admin) (event : Event) :
    Option Event :=
  if roleOf adminDetails = some "event_admin" ∧
      ¬ some event.id = adminEventId adminDetails then
    none
  else
    some event

/-- A concrete event in department "d1". -/
def evSample : Event :=
  { id := "e1", title := "Quiz", description := "", department_id := "d1",
    venue := "", conduction_venue := "", date := "", team_size := 2,
    registration_fee := 0, event_type := "Technical", is_trending := false,
    image_url := "", qr_code_url := "", payment_qr_url := "",
    faculty_coordinators := [], student_coordinators := [],
    created_at := "c" }

/-- A concrete event other than `evSample`. -/
def evOtherSample : Event :=
  { id := "e2", title := "Dance", description := "", department_id := "d1",
    venue := "", conduction_venue := "", date := "", team_size := 4,
    registration_fee := 0, event_type := "Cultural", is_trending := false,
    image_url := "", qr_code_url := "", payment_qr_url := "",
    created_at := "c", faculty_coordinators := [],
    student_coordinators := [] }

/-- A concrete event_admin assigned to `evSample`. -/
def eaAdminSample : Admin :=
  { id := "a2", username := "ea", role := "event_admin",
    department_id := some "d1", event_id := some "e1" }

/-- Concrete form values that keep `evSample`'s data but move it to
department "d2". -/
def formSampleD2 : EventFormValues :=
  { title := "Quiz", description := "", department_id := "d2", venue := "",
    conduction_venue := "", date := "", team_size := 2,
    registration_fee := 0, event_type := "Technical", is_trending := false,
    image_url := "", qr_code_url := "", payment_qr_url := "",
    faculty_coordinators := [], student_coordinators := [] }

/-- C2 counterexample: an event_admin assigned to event "e1" submits an
edit of "e1" with department "d2"; `handleAddEdit` accepts it and the
stored row's department_id becomes "d2", different from the "d1" it had
before the edit — so an event_admin's accepted edit can change an event's
department_id. -/
theorem c2_event_admin_changes_department_counterexample :
    (handleAddEdit (some eaAdminSample) (some evSample) formSampleD2
        [evSample] "f" "t").2 = SaveResult.updated ∧
    (handleAddEdit (some eaAdminSample) (some evSample) formSampleD2
        [evSample] "f" "t").1.map Event.department_id = ["d2"] ∧
    evSample.department_id = "d1" ∧ ("d2" : String) ≠ "d1" := by
  decide

/-- C2 (amended): an event_admin's edit is rejected before any write
unless the target is its assigned event; an accepted event_admin edit
stores the form's submitted department_id on the row (so the
department_id can change — the code only pins department_id for
department_admin). -/
theorem c2_event_admin_edit_scope (adminDetails : Option Admin)
    (currentEvent : Option Event) (values : EventFormValues)
    (db : List Event) (freshId createdAt : String)
    (hrole : roleOf adminDetails = some "event_admin") :
    (¬ currentEvent.map Event.id = adminEventId adminDetails →
      handleAddEdit adminDetails currentEvent values db freshId createdAt =
        (db, SaveResult.permissionDenied)) ∧
    (∀ ev, currentEvent = some ev →
      currentEvent.map Event.id = adminEventId adminDetails →
      (handleAddEdit adminDetails currentEvent values db freshId
          createdAt).2 = SaveResult.updated ∧
      ∀ e ∈ (handleAddEdit adminDetails currentEvent values db freshId
          createdAt).1,
        e.id = ev.id → e.department_id = values.department_id) := by
  have hnd : ¬ roleOf adminDetails = some "department_admin" := by
    simp [hrole]
  constructor
  · intro hne
    simp [handleAddEdit, hrole, hnd, hne]
  · intro ev hev hsame
    subst hev
    have hg1 : ¬ (roleOf adminDetails = some "department_admin" ∧
        ¬ adminDeptId adminDetails = some values.department_id) :=
      fun h => hnd h.1
    have hg2 : ¬ (roleOf adminDetails = some "event_admin" ∧
        ¬ (some ev).map Event.id = adminEventId adminDetails) :=
      fun h => h.2 hsame
    have hres : handleAddEdit adminDetails (some ev) values db freshId
        createdAt =
        (db.map fun e => if e.id = ev.id then applyEventData values e else e,
          SaveResult.updated) := by
      unfold handleAddEdit
      rw [if_neg hg1, if_neg hg2]
    rw [hres]
    refine ⟨rfl, ?_⟩
    intro e he hid
    simp only [List.mem_map] at he
    obtain ⟨x, hx, hxe⟩ := he
    by_cases hxid : x.id = ev.id
    · rw [if_pos hxid] at hxe
      subst hxe
      rfl
    · rw [if_neg hxid] at hxe
      subst hxe
      exact absurd hid hxid

/-- C2 witness: the event_admin of `eaAdminSample` is denied on event
"e2", and its accepted edit of its own event "e1" stores the submitted
department "d2". -/
theorem c2_event_admin_edit_scope_witness :
    handleAddEdit (some eaAdminSample) (some evOtherSample) formSampleD2
        [evSample] "f" "t" = ([evSample], SaveResult.permissionDenied) ∧
    ((handleAddEdit (some eaAdminSample) (some evSample) formSampleD2
        [evSample] "f" "t").2 = SaveResult.updated ∧
      ∀ e ∈ (handleAddEdit (some eaAdminSample) (some evSample) formSampleD2
          [evSample] "f" "t").1,
        e.id = evSample.id → e.department_id = formSampleD2.department_id) :=
  ⟨(c2_event_admin_edit_scope (some eaAdminSample) (some evOtherSample)
      formSampleD2 [evSample] "f" "t" (by decide)).1 (by decide),
   (c2_event_admin_edit_scope (some eaAdminSample) (some evSample)
      formSampleD2 [evSample] "f" "t" (by decide)).2 evSample rfl
      (by decide)⟩

/-- C3: a denied registration-status mutation (verify/reject/reset)
reports a permission error and leaves the registrations table unchanged;
a denied event edit (event_admin targeting a foreign event, or
department_admin submitting a foreign department) reports a permission
error and leaves the events table unchanged; `handleEditEvent` refuses to
open the edit dialog for an event_admin on a foreign event. -/
theorem c3_denied_mutations_are_no_ops (adminDetails : Option Admin)
    (reg : RegistrationWithDetails) (db : List Registration)
    (values : EventFormValues) (currentEvent : Option Event) (ev : Event)
    (evDb : List Event) (freshId createdAt : String) :
    (canModifyRegistration adminDetails reg = false →
      handleVerifyRegistration adminDetails reg db =
        (db, RegResult.permissionDenied) ∧
      handleRejectRegistration adminDetails reg db =
        (db, RegResult.permissionDenied) ∧
      handleResetPaymentStatus adminDetails reg db =
        (db, RegResult.permissionDenied)) ∧
    (roleOf adminDetails = some "event_admin" →
      ¬ currentEvent.map Event.id = adminEventId adminDetails →
      handleAddEdit adminDetails currentEvent values evDb freshId
        createdAt = (evDb, SaveResult.permissionDenied)) ∧
    (roleOf adminDetails = some "department_admin" →
      ¬ adminDeptId adminDetails = some values.department_id →
      handleAddEdit adminDetails currentEvent values evDb freshId
        createdAt = (evDb, SaveResult.permissionDenied)) ∧
    (roleOf adminDetails = some "event_admin" →
      ¬ some ev.id = adminEventId adminDetails →
      handleEditEvent adminDetails ev = none) := by
  refine ⟨?_, ?_, ?_, ?_⟩
  · intro hdeny
    exact ⟨by simp [handleVerifyRegistration, hdeny],
      by simp [handleRejectRegistration, hdeny],
      by simp [handleResetPaymentStatus, hdeny]⟩
  · intro hrole hne
    have hnd : ¬ roleOf adminDetails = some "department_admin" := by
      simp [hrole]
    simp [handleAddEdit, hrole, hnd, hne]
  · intro hrole hne
    simp [handleAddEdit, hrole, hne]
  · intro hrole hne
    simp [handleEditEvent, hrole, hne]

/-- C3 witness: a caller with no admin row is denied all three status
mutations with no write, and the event_admin of `eaAdminSample` is denied
both the edit submit and the edit dialog on foreign event "e2" with no
write. -/
theorem c3_denied_mutations_are_no_ops_witness :
    (handleVerifyRegistration none
        { id := "r1", event_id := "e1", user_id := "u1",
          team_id := "TEAM-x", team_members := [], payment_method := "Cash",
          payment_status := "Pending", created_at := "c", event := evSample,
          department := none }
        [{ id := "r1", event_id := "e1", user_id := "u1",
           team_id := "TEAM-x", team_members := [], payment_method := "Cash",
           payment_status := "Pending", created_at := "c" }] =
      ([{ id := "r1", event_id := "e1", user_id := "u1",
          team_id := "TEAM-x", team_members := [], payment_method := "Cash",
          payment_status := "Pending", created_at := "c" }],
        RegResult.permissionDenied)) ∧
    handleAddEdit (some eaAdminSample) (some evOtherSample) formSampleD2
      [evSample, evOtherSample] "f" "t" =
      ([evSample, evOtherSample], SaveResult.permissionDenied) ∧
    handleEditEvent (some eaAdminSample) evOtherSample = none := by
  have h := c3_denied_mutations_are_no_ops none
    { id := "r1", event_id := "e1", user_id := "u1", team_id := "TEAM-x",
      team_members := [], payment_method := "Cash",
      payment_status := "Pending", created_at := "c", event := evSample,
      department := none }
    [{ id := "r1", event_id := "e1", user_id := "u1", team_id := "TEAM-x",
       team_members := [], payment_method := "Cash",
       payment_status := "Pending", created_at := "c" }]
    formSampleD2 (some evOtherSample) evOtherSample
    [evSample, evOtherSample] "f" "t"
  have h2 := c3_denied_mutations_are_no_ops (some eaAdminSample)
    { id := "r1", event_id := "e1", user_id := "u1", team_id := "TEAM-x",
      team_members := [], payment_method := "Cash",
      payment_status := "Pending", created_at := "c", event := evSample,
      department := none }
    [{ id := "r1", event_id := "e1", user_id := "u1", team_id := "TEAM-x",
       team_members := [], payment_method := "Cash",
       payment_status := "Pending", created_at := "c" }]
    formSampleD2 (some evOtherSample) evOtherSample
    [evSample, evOtherSample] "f" "t"
  exact ⟨(h.1 (by decide)).1, h2.2.1 (by decide) (by decide),
    h2.2.2.2 (by decide) (by decide)⟩

/-- The authenticated user object. -/
structure AuthUser where
  id : String
  email : String
deriving DecidableEq, Repr

/-- A row of the `profiles` table. -/
structure Profile where
  id : String
  name : String
  usn : String
  phone : String
deriving DecidableEq, Repr

/-- The registration form's submitted values. -/
structure RegistrationFormValues where
  paymentMethod : String
  teamMembers : List TeamMember
deriving DecidableEq, Repr

/-- The `registrationData` object inserted into the `registrations` table
by the registration page's `onSubmit` (id and created_at are generated by
the backend and are not part of the insert payload). -/
structure RegistrationData where
  event_id : String
  user_id : String
  team_id : String
  team_members : List TeamMember
  payment_method : String
  payment_status : String
deriving DecidableEq, Repr

/-- `onSubmit` from the registration page: bails out unless event, user
and profile are all present, then inserts one row with a "TEAM-" +
8-character-uuid-slice team id and payment_status "Pending".  `uuid`
models the random `uuidv4()` string; the Boolean reports whether an
insert was sent. -/
def onSubmit (event : Option Event) (user : Option AuthUser)
    (profile : Option Profile) (data : RegistrationFormValues)
    (uuid : String) (db : List RegistrationData) :
    List RegistrationData × Bool :=
  match event, user, profile with
  | some event, some user, some _ =>
      (db ++ [{ event_id := event.id, user_id := user.id,
                team_id := "TEAM-" ++ uuid.take 8,
                team_members := data.teamMembers,
                payment_method := data.paymentMethod,
                payment_status := "Pending" }], true)
  | _, _, _ => (db, false)

/-- `teamMemberSchema`: name at least 2 characters, USN 5–10 characters,
phone 10–13 characters. -/
def validTeamMember (m : TeamMember) : Bool :=
  decide (2 ≤ m.name.length) && decide (5 ≤ m.usn.length) &&
  decide (m.usn.length ≤ 10) && decide (10 ≤ m.phone.length) &&
  decide (m.phone.length ≤ 13)

/-- `createRegistrationSchema(teamSize)`: a payment method must be chosen
and the team-member array must validate with length between 1 and
`teamSize`. -/
def validRegistrationForm (teamSize : Nat)
    (data : RegistrationFormValues) : Bool :=
  decide (1 ≤ data.paymentMethod.length) &&
  data.teamMembers.all validTeamMember &&
  decide (1 ≤ data.teamMembers.length) &&
  decide (data.teamMembers.length ≤ teamSize)

/-- `form.handleSubmit(onSubmit)` with the zod resolver built from the
fetched event's team_size: `onSubmit` runs only when the form values pass
the schema; otherwise nothing is sent to the backend. -/
def handleSubmitRegistration (event : Option Event) (user : Option AuthUser)
    (profile : Option Profile) (data : RegistrationFormValues)
    (uuid : String) (db : List RegistrationData) :
    List RegistrationData × Bool :=
  let teamSize := match event with
    | some ev => ev.team_size
    | none => 1
  if validRegistrationForm teamSize data then
    onSubmit event user profile data uuid db
  else
    (db, false)

/-- C4: a successful submission appends exactly one row whose
payment_status is "Pending" and whose team_id is the fixed prefix "TEAM-"
followed by the random suffix, with event_id, user_id, team_members and
payment_method equal to the submitted values; the insert happens for any
prior table state, in particular also when the same user already has a
registration for the same event. -/
theorem c4_submission_row_shape (ev : Event) (u : AuthUser) (pr : Profile)
    (data : RegistrationFormValues) (uuid : String)
    (db : List RegistrationData) :
    (onSubmit (some ev) (some u) (some pr) data uuid db).2 = true ∧
    (onSubmit (some ev) (some u) (some pr) data uuid db).1.length =
      db.length + 1 ∧
    (onSubmit (some ev) (some u) (some pr) data uuid db).1.take db.length =
      db ∧
    (∃ row, (onSubmit (some ev) (some u) (some pr) data uuid
        db).1.getLast? = some row ∧
      row.payment_status = "Pending" ∧
      row.team_id = "TEAM-" ++ uuid.take 8 ∧
      row.event_id = ev.id ∧ row.user_id = u.id ∧
      row.team_members = data.teamMembers ∧
      row.payment_method = data.paymentMethod) ∧
    ((∃ r0 ∈ db, r0.event_id = ev.id ∧ r0.user_id = u.id) →
      (onSubmit (some ev) (some u) (some pr) data uuid db).2 = true ∧
      (onSubmit (some ev) (some u) (some pr) data uuid db).1.length =
        db.length + 1) := by
  refine ⟨rfl, by simp [onSubmit], ?_, ?_, fun _ => ⟨rfl, by simp [onSubmit]⟩⟩
  · simp [onSubmit, List.take_left]
  · refine ⟨{ event_id := ev.id, user_id := u.id,
              team_id := "TEAM-" ++ uuid.take 8,
              team_members := data.teamMembers,
              payment_method := data.paymentMethod,
              payment_status := "Pending" }, ?_, rfl, rfl, rfl, rfl, rfl, rfl⟩
    simp [onSubmit]

/-- C4 witness: a concrete submission by a user who already has a
registration for the same event still inserts a second "Pending" row. -/
theorem c4_submission_row_shape_witness :
    (onSubmit (some evSample)
        (some { id := "u1", email := "u1@x" })
        (some { id := "u1", name := "N", usn := "1SV21CS001",
                phone := "9999999999" })
        { paymentMethod := "Cash",
          teamMembers := [{ name := "N", usn := "1SV21CS001",
                            phone := "9999999999" }] }
        "abcdefgh-1234"
        [{ event_id := "e1", user_id := "u1", team_id := "TEAM-old",
           team_members := [], payment_method := "Cash",
           payment_status := "Pending" }]).2 = true ∧
    (onSubmit (some evSample)
        (some { id := "u1", email := "u1@x" })
        (some { id := "u1", name := "N", usn := "1SV21CS001",
                phone := "9999999999" })
        { paymentMethod := "Cash",
          teamMembers := [{ name := "N", usn := "1SV21CS001",
                            phone := "9999999999" }] }
        "abcdefgh-1234"
        [{ event_id := "e1", user_id := "u1", team_id := "TEAM-old",
           team_members := [], payment_method := "Cash",
           payment_status := "Pending" }]).1.length = 1 + 1 :=
  ((c4_submission_row_shape evSample { id := "u1", email := "u1@x" }
      { id := "u1", name := "N", usn := "1SV21CS001", phone := "9999999999" }
      { paymentMethod := "Cash",
        teamMembers := [{ name := "N", usn := "1SV21CS001",
                          phone := "9999999999" }] }
      "abcdefgh-1234"
      [{ event_id := "e1", user_id := "u1", team_id := "TEAM-old",
         team_members := [], payment_method := "Cash",
         payment_status := "Pending" }]).2.2.2.2
    ⟨{ event_id := "e1", user_id := "u1", team_id := "TEAM-old",
       team_members := [], payment_method := "Cash",
       payment_status := "Pending" }, by decide⟩)

/-- C5: the zod schema accepts only team-member lists in which every name
has at least 2 characters, every USN 5–10 characters, every phone 10–13
characters, with 1 to team_size members; a form that fails the schema is
rejected with nothing sent to the backend and the table unchanged. -/
theorem c5_client_validation_bounds (ev : Event)
    (data : RegistrationFormValues) (u : Option AuthUser)
    (pr : Option Profile) (uuid : String) (db : List RegistrationData) :
    (validRegistrationForm ev.team_size data = true →
      1 ≤ data.teamMembers.length ∧
      data.teamMembers.length ≤ ev.team_size ∧
      ∀ m ∈ data.teamMembers,
        2 ≤ m.name.length ∧ 5 ≤ m.usn.length ∧ m.usn.length ≤ 10 ∧
        10 ≤ m.phone.length ∧ m.phone.length ≤ 13) ∧
    (validRegistrationForm ev.team_size data = false →
      handleSubmitRegistration (some ev) u pr data uuid db = (db, false)) := by
  constructor
  · intro hvalid
    simp only [validRegistrationForm, Bool.and_eq_true, decide_eq_true_eq,
      List.all_eq_true] at hvalid
    refine ⟨hvalid.1.2, hvalid.2, ?_⟩
    intro m hm
    have := hvalid.1.1.2 m hm
    simp only [validTeamMember, Bool.and_eq_true, decide_eq_true_eq] at this
    exact ⟨this.1.1.1.1, this.1.1.1.2, this.1.1.2, this.1.2, this.2⟩
  · intro hinvalid
    simp [handleSubmitRegistration, hinvalid]

/-- C5 witness: three well-formed members for an event of team_size 2 are
rejected before submission, and a valid one-member form satisfies the
stated bounds. -/
theorem c5_client_validation_bounds_witness :
    handleSubmitRegistration (some evSample)
      (some { id := "u1", email := "u1@x" })
      (some { id := "u1", name := "N", usn := "1SV21CS001",
              phone := "9999999999" })
      { paymentMethod := "Cash",
        teamMembers :=
          [{ name := "Aa", usn := "1SV21", phone := "9999999999" },
           { name := "Bb", usn := "1SV22", phone := "9999999998" },
           { name := "Cc", usn := "1SV23", phone := "9999999997" }] }
      "abcdefgh" [] = ([], false) ∧
    (1 ≤ ([{ name := "Aa", usn := "1SV21", phone := "9999999999" }] :
        List TeamMember).length ∧
      ([{ name := "Aa", usn := "1SV21", phone := "9999999999" }] :
        List TeamMember).length ≤ evSample.team_size ∧
      ∀ m ∈ ([{ name := "Aa", usn := "1SV21", phone := "9999999999" }] :
          List TeamMember),
        2 ≤ m.name.length ∧ 5 ≤ m.usn.length ∧ m.usn.length ≤ 10 ∧
        10 ≤ m.phone.length ∧ m.phone.length ≤ 13) :=
  ⟨(c5_client_validation_bounds evSample
      { paymentMethod := "Cash",
        teamMembers :=
          [{ name := "Aa", usn := "1SV21", phone := "9999999999" },
           { name := "Bb", usn := "1SV22", phone := "9999999998" },
           { name := "Cc", usn := "1SV23", phone := "9999999997" }] }
      (some { id := "u1", email := "u1@x" })
      (some { id := "u1", name := "N", usn := "1SV21CS001",
              phone := "9999999999" })
      "abcdefgh" []).2 (by decide),
   (c5_client_validation_bounds evSample
      { paymentMethod := "Cash",
        teamMembers := [{ name := "Aa", usn := "1SV21",
                          phone := "9999999999" }] }
      (some { id := "u1", email := "u1@x" })
      (some { id := "u1", name := "N", usn := "1SV21CS001",
              phone := "9999999999" })
      "abcdefgh" []).1 (by decide)⟩

/-- Outcome reported by `handleCreateAdmin`: the early-return error toasts
and the success path. -/
inductive CreateAdminResult where
  | noUser
  | noDepartment
  | noEvent
  | roleNotAllowed
  | ok
deriving DecidableEq, Repr

/-- The `allowedRoles` list computed inside `handleCreateAdmin`. -/
def allowedRolesFor (adminDetails : Option Admin) : List String :=
  if roleOf adminDetails = some "main_admin" then
    ["main_admin", "department_admin", "event_admin"]
  else if roleOf adminDetails = some "department_admin" then
    ["event_admin"]
  else
    []

/-- The `adminData` object upserted by `handleCreateAdmin`: for a
department_admin the selected department; for an event_admin the selected
event plus the department of that event looked up in the local events
list (`|| null` maps a missing or empty lookup to null); for a main_admin
both scope columns are null. -/
def adminRowFor (selectedUserId : String) (selectedUserEmail : Option String)
    (selectedRole selectedDepartment selectedEvent : String)
    (events : List Event) : Admin :=
  { id := selectedUserId
    username := selectedUserEmail.getD ""
    role := selectedRole
    department_id :=
      if selectedRole = "department_admin" then
        some selectedDepartment
      else if selectedRole = "event_admin" then
        match events.find? (fun e => e.id == selectedEvent) with
        | some e =>
            if e.department_id = "" then none else some e.department_id
        | none => none
      else
        none
    event_id :=
      if selectedRole = "event_admin" then some selectedEvent else none }

/-- The Supabase `upsert(adminData, onConflict: "id")` call: replace the
rows sharing the id, or append when none does. -/
def upsertAdmin (admins : List Admin) (a : Admin) : List Admin :=
  if admins.any (fun x => x.id == a.id) then
    admins.map fun x => if x.id = a.id then a else x
  else
    admins ++ [a]

/-- `handleCreateAdmin` from the admin-user-management component: early
returns for a missing user, a department_admin without a department, an
event_admin without an event, and a role the caller may not assign;
otherwise the admin row is upserted. -/
def handleCreateAdmin (adminDetails : Option Admin)
    (selectedUserId selectedUserEmail : Option String)
    (selectedRole selectedDepartment selectedEvent : String)
    (events : List Event) (admins : List Admin) :
    List Admin × CreateAdminResult :=
  if selectedUserId.getD "" = "" then
    (admins, CreateAdminResult.noUser)
  else if selectedRole = "department_admin" ∧ selectedDepartment = "" then
    (admins, CreateAdminResult.noDepartment)
  else if selectedRole = "event_admin" ∧ selectedEvent = "" then
    (admins, CreateAdminResult.noEvent)
  else if ¬ selectedRole ∈ allowedRolesFor adminDetails then
    (admins, CreateAdminResult.roleNotAllowed)
  else
    (upsertAdmin admins
      (adminRowFor (selectedUserId.getD "") selectedUserEmail selectedRole
        selectedDepartment selectedEvent events),
      CreateAdminResult.ok)

theorem mem_allowedRolesFor (adminDetails : Option Admin) (role : String) :
    role ∈ allowedRolesFor adminDetails ↔
      (roleOf adminDetails = some "main_admin" ∧
        (role = "main_admin" ∨ role = "department_admin" ∨
          role = "event_admin")) ∨
      (roleOf adminDetails = some "department_admin" ∧
        role = "event_admin") := by
  unfold allowedRolesFor
  by_cases hm : roleOf adminDetails = some "main_admin"
  · simp [hm]
  · by_cases hd : roleOf adminDetails = some "department_admin" <;>
      simp [hm, hd]

theorem handleCreateAdmin_error_no_write (adminDetails : Option Admin)
    (selectedUserId selectedUserEmail : Option String)
    (selectedRole selectedDepartment selectedEvent : String)
    (events : List Event) (admins : List Admin) :
    (handleCreateAdmin adminDetails selectedUserId selectedUserEmail
        selectedRole selectedDepartment selectedEvent events admins).2 =
      CreateAdminResult.ok ∨
    (handleCreateAdmin adminDetails selectedUserId selectedUserEmail
        selectedRole selectedDepartment selectedEvent events admins).1 =
      admins := by
  unfold handleCreateAdmin
  split
  · right; rfl
  · split
    · right; rfl
    · split
      · right; rfl
      · split
        · right; rfl
        · left; rfl

/-- C6: with `selectedUserId` present, `handleCreateAdmin` succeeds
exactly when the user id is non-empty, the scope selections required by
the role are made, and the role lies in the caller's allowed set — the
three roles for a main_admin caller, only event_admin for a
department_admin caller, nothing for anyone else; every failing call
reports an error and writes nothing. -/
theorem c6_admin_creation_role_matrix (adminDetails : Option Admin)
    (uid : String) (selectedUserEmail : Option String)
    (selectedRole selectedDepartment selectedEvent : String)
    (events : List Event) (admins : List Admin) :
    ((handleCreateAdmin adminDetails (some uid) selectedUserEmail
        selectedRole selectedDepartment selectedEvent events admins).2 =
      CreateAdminResult.ok ↔
      uid ≠ "" ∧
      (selectedRole = "department_admin" → selectedDepartment ≠ "") ∧
      (selectedRole = "event_admin" → selectedEvent ≠ "") ∧
      ((roleOf adminDetails = some "main_admin" ∧
          (selectedRole = "main_admin" ∨
            selectedRole = "department_admin" ∨
            selectedRole = "event_admin")) ∨
        (roleOf adminDetails = some "department_admin" ∧
          selectedRole = "event_admin"))) ∧
    ((handleCreateAdmin adminDetails (some uid) selectedUserEmail
        selectedRole selectedDepartment selectedEvent events admins).2 ≠
      CreateAdminResult.ok →
      (handleCreateAdmin adminDetails (some uid) selectedUserEmail
        selectedRole selectedDepartment selectedEvent events admins).1 =
      admins) := by
  constructor
  · unfold handleCreateAdmin
    rw [show (some uid).getD "" = uid from rfl]
    by_cases h1 : uid = ""
    · simp [h1]
    rw [if_neg h1]
    by_cases h2 : selectedRole = "department_admin" ∧ selectedDepartment = ""
    · rw [if_pos h2]
      simp [h1, h2.1, h2.2]
    rw [if_neg h2]
    by_cases h3 : selectedRole = "event_admin" ∧ selectedEvent = ""
    · rw [if_pos h3]
      simp only [not_and, Ne, ← mem_allowedRolesFor]
      constructor
      · intro hcontr; exact absurd hcontr (by simp)
      · intro hcond
        exact absurd (hcond.2.2.1 h3.1) (by simp [h3.2])
    rw [if_neg h3]
    rw [not_and] at h2 h3
    by_cases h4 : selectedRole ∈ allowedRolesFor adminDetails
    · rw [if_neg (not_not_intro h4)]
      rw [mem_allowedRolesFor] at h4
      simp only [true_iff, iff_true]
      exact ⟨h1, fun hr => h2 hr, fun hr => h3 hr, h4⟩
    · rw [if_pos h4]
      rw [mem_allowedRolesFor] at h4
      constructor
      · intro hcontr; exact absurd hcontr (by simp)
      · intro hcond; exact absurd hcond.2.2.2 h4
  · intro hne
    rcases handleCreateAdmin_error_no_write adminDetails (some uid)
      selectedUserEmail selectedRole selectedDepartment selectedEvent
      events admins with h | h
    · exact absurd h hne
    · exact h

/-- C6 witness: a department_admin caller successfully creates an
event_admin, and is refused a department_admin creation with no write. -/
theorem c6_admin_creation_role_matrix_witness :
    (handleCreateAdmin
        (some { id := "a3", username := "da", role := "department_admin",
                department_id := some "d1", event_id := none })
        (some "u7") (some "u7@x") "event_admin" "" "e1" [evSample]
        []).2 = CreateAdminResult.ok ∧
    (handleCreateAdmin
        (some { id := "a3", username := "da", role := "department_admin",
                department_id := some "d1", event_id := none })
        (some "u7") (some "u7@x") "department_admin" "d1" "" [evSample]
        []).1 = [] := by
  have h1 := c6_admin_creation_role_matrix
    (some { id := "a3", username := "da", role := "department_admin",
            department_id := some "d1", event_id := none })
    "u7" (some "u7@x") "event_admin" "" "e1" [evSample] []
  have h2 := c6_admin_creation_role_matrix
    (some { id := "a3", username := "da", role := "department_admin",
            department_id := some "d1", event_id := none })
    "u7" (some "u7@x") "department_admin" "d1" "" [evSample] []
  refine ⟨h1.1.mpr ⟨by decide, by decide, fun _ => by decide, ?_⟩, ?_⟩
  · right
    exact ⟨by simp [roleOf], rfl⟩
  · refine h2.2 ?_
    intro hok
    have := h2.1.mp hok
    rcases this.2.2.2 with ⟨hm, _⟩ | ⟨_, hr⟩
    · simp [roleOf] at hm
    · exact absurd hr (by decide)

theorem mem_upsertAdmin_self (admins : List Admin) (a : Admin) :
    a ∈ upsertAdmin admins a := by
  by_cases h : admins.any (fun x => x.id == a.id) = true
  · rw [upsertAdmin, if_pos h]
    rw [List.any_eq_true] at h
    obtain ⟨x, hx, hxa⟩ := h
    rw [beq_iff_eq] at hxa
    exact List.mem_map.mpr ⟨x, hx, by rw [if_pos hxa]⟩
  · rw [upsertAdmin, if_neg h]
    exact List.mem_append.mpr (Or.inr (List.mem_singleton.mpr rfl))

/-- C7: the row upserted by a successful `handleCreateAdmin` call obeys
the scoping invariants: a department_admin row has a non-null
department_id and null event_id; an event_admin row has a non-null
event_id and its department_id, when set, is the department of the
assigned event; a main_admin row has both scope columns null. -/
theorem c7_created_admin_row_invariants (adminDetails : Option Admin)
    (uid : String) (selectedUserEmail : Option String)
    (selectedRole selectedDepartment selectedEvent : String)
    (events : List Event) (admins : List Admin)
    (hok : (handleCreateAdmin adminDetails (some uid) selectedUserEmail
        selectedRole selectedDepartment selectedEvent events admins).2 =
      CreateAdminResult.ok) :
    ∃ a, a ∈ (handleCreateAdmin adminDetails (some uid) selectedUserEmail
        selectedRole selectedDepartment selectedEvent events admins).1 ∧
      a.id = uid ∧ a.role = selectedRole ∧
      (a.role = "department_admin" →
        a.department_id ≠ none ∧ a.event_id = none) ∧
      (a.role = "event_admin" →
        a.event_id ≠ none ∧
        ∀ d, a.department_id = some d →
          ∃ e ∈ events, some e.id = a.event_id ∧ e.department_id = d) ∧
      (a.role = "main_admin" →
        a.department_id = none ∧ a.event_id = none) := by
  unfold handleCreateAdmin at hok ⊢
  rw [show (some uid).getD "" = uid from rfl] at hok ⊢
  by_cases h1 : uid = ""
  · rw [if_pos h1] at hok; exact absurd hok (by simp)
  rw [if_neg h1] at hok ⊢
  by_cases h2 : selectedRole = "department_admin" ∧ selectedDepartment = ""
  · rw [if_pos h2] at hok; exact absurd hok (by simp)
  rw [if_neg h2] at hok ⊢
  by_cases h3 : selectedRole = "event_admin" ∧ selectedEvent = ""
  · rw [if_pos h3] at hok; exact absurd hok (by simp)
  rw [if_neg h3] at hok ⊢
  by_cases h4 : selectedRole ∈ allowedRolesFor adminDetails
  · rw [if_neg (not_not_intro h4)] at hok ⊢
    refine ⟨adminRowFor uid selectedUserEmail selectedRole
        selectedDepartment selectedEvent events,
      mem_upsertAdmin_self _ _, rfl, rfl, ?_, ?_, ?_⟩
    · intro hr
      have hr' : selectedRole = "department_admin" := by
        simpa [adminRowFor] using hr
      constructor
      · simp [adminRowFor, hr']
      · simp [adminRowFor, hr']
    · intro hr
      have hr' : selectedRole = "event_admin" := by
        simpa [adminRowFor] using hr
      have hea : (adminRowFor uid selectedUserEmail selectedRole
          selectedDepartment selectedEvent events).event_id =
          some selectedEvent := by
        simp [adminRowFor, hr']
      have hda : (adminRowFor uid selectedUserEmail selectedRole
          selectedDepartment selectedEvent events).department_id =
          match events.find? (fun e => e.id == selectedEvent) with
          | some e =>
              if e.department_id = "" then none else some e.department_id
          | none => none := by
        simp [adminRowFor, hr']
      refine ⟨by simp [hea], ?_⟩
      intro d hd
      rw [hda] at hd
      rcases hfind : events.find? (fun e => e.id == selectedEvent)
        with _ | e
      · rw [hfind] at hd; cases hd
      · rw [hfind] at hd
        have hd' : (if e.department_id = "" then none
            else some e.department_id) = some d := hd
        by_cases hemp : e.department_id = ""
        · rw [if_pos hemp] at hd'; cases hd'
        · rw [if_neg hemp] at hd'
          have hdq : e.department_id = d := by
            simpa using hd'
          refine ⟨e, List.mem_of_find?_eq_some hfind, ?_, hdq⟩
          have hpe := List.find?_some hfind
          rw [beq_iff_eq] at hpe
          simp [hea, hpe]
    · intro hr
      have hr' : selectedRole = "main_admin" := by
        simpa [adminRowFor] using hr
      constructor
      · simp [adminRowFor, hr']
      · simp [adminRowFor, hr']
  · rw [if_pos h4] at hok; exact absurd hok (by simp)

/-- C7 witness: a main_admin creating an event_admin for the concrete
event "e1" yields a written row satisfying the scoping invariants. -/
theorem c7_created_admin_row_invariants_witness :
    ∃ a, a ∈ (handleCreateAdmin
        (some { id := "a1", username := "m", role := "main_admin",
                department_id := none, event_id := none })
        (some "u8") (some "u8@x") "event_admin" "" "e1" [evSample] []).1 ∧
      a.id = "u8" ∧ a.role = "event_admin" ∧
      (a.role = "department_admin" →
        a.department_id ≠ none ∧ a.event_id = none) ∧
      (a.role = "event_admin" →
        a.event_id ≠ none ∧
        ∀ d, a.department_id = some d →
          ∃ e ∈ [evSample], some e.id = a.event_id ∧
            e.department_id = d) ∧
      (a.role = "main_admin" →
        a.department_id = none ∧ a.event_id = none) :=
  c7_created_admin_row_invariants
    (some { id := "a1", username := "m", role := "main_admin",
            department_id := none, event_id := none })
    "u8" (some "u8@x") "event_admin" "" "e1" [evSample] [] (by decide)

/-- The Supabase row-lookup used by an equality filter on the
`registrations` table. -/
def lookupRegistrationField (r : Registration) (field : String) :
    Option String :=
  if field = "id" then some r.id
  else if field = "event_id" then some r.event_id
  else if field = "user_id" then some r.user_id
  else if field = "team_id" then some r.team_id
  else if field = "payment_method" then some r.payment_method
  else if field = "payment_status" then some r.payment_status
  else if field = "created_at" then some r.created_at
  else none

/-- A conjunction of `.eq(column, value)` filters on a registration row. -/
def matchesEqFilters (filters : List (String × String))
    (r : Registration) : Bool :=
  filters.all fun f => lookupRegistrationField r f.1 == some f.2

/-- A `select("*", count: "exact", head: true)` query with equality
filters: the exact number of matching rows. -/
def countRegistrations (db : List Registration)
    (filters : List (String × String)) : Nat :=
  (db.filter (matchesEqFilters filters)).length

/-- `fetchStats` of the live counter: the exact count of registrations
with `payment_status` equal to "Verified". -/
def fetchStats (db : List Registration) : Nat :=
  countRegistrations db [("payment_status", "Verified")]

/-- C10: the homepage counter equals the number of registration rows
whose payment_status is exactly "Verified"; appending a "Pending" or
"Rejected" registration never changes the displayed figure. -/
theorem c10_live_counter_counts_verified (db : List Registration) :
    fetchStats db =
      (db.filter fun r => r.payment_status == "Verified").length ∧
    ∀ r : Registration,
      r.payment_status = "Pending" ∨ r.payment_status = "Rejected" →
      fetchStats (db ++ [r]) = fetchStats db := by
  have hfn : ∀ l : List Registration,
      l.filter (matchesEqFilters [("payment_status", "Verified")]) =
      l.filter fun r => r.payment_status == "Verified" := by
    intro l
    apply List.filter_congr
    intro r _
    by_cases hv : r.payment_status = "Verified" <;>
      simp [matchesEqFilters, lookupRegistrationField, hv]
  constructor
  · rw [fetchStats, countRegistrations, hfn]
  · intro r hr
    rw [fetchStats, fetchStats, countRegistrations, countRegistrations,
      hfn, hfn]
    have hrv : (r.payment_status == "Verified") = false := by
      rcases hr with h | h <;> rw [h] <;> decide
    simp [List.filter_append, hrv]

/-- C10 witness: appending a concrete "Pending" registration to the empty
table leaves the counter at its previous value. -/
theorem c10_live_counter_counts_verified_witness :
    fetchStats ([] ++
      [{ id := "r9", event_id := "e1", user_id := "u1",
         team_id := "TEAM-y", team_members := [],
         payment_method := "Cash", payment_status := "Pending",
         created_at := "c" }]) = fetchStats [] :=
  (c10_live_counter_counts_verified []).2
    { id := "r9", event_id := "e1", user_id := "u1", team_id := "TEAM-y",
      team_members := [], payment_method := "Cash",
      payment_status := "Pending", created_at := "c" }
    (Or.inl rfl)
